import Mathlib

/-!
Verification of the DIVINA backend's booking-and-coupon engine, shallowly
embedded from the repository sources:

  * app/models/store.py   — Store / DivingSchedule models
  * app/models/books.py   — the Booking model (store-name/expiry variant)
  * app/models/coupon.py  — Coupon / CouponRedemption models
  * app/routes/books.py   — create_booking / cancel_booking routes

Conventions of the embedding:

  * SQLAlchemy float columns are modelled as rationals, integer columns as
    Int/Nat, datetime and date columns as Int instants (the request clock is
    passed explicitly where the source calls datetime.now).
  * The database session is modelled as a pure state (DB below); a query is a
    pure lookup in that state and commit is the returned state.  Rows are Lean
    structures whose fields are exactly the columns the model class declares.
  * Python attribute semantics on the model classes is modelled faithfully:
    an access to a name the class does not bind raises AttributeError, and a
    declarative constructor call with a keyword that is not a mapped attribute
    raises TypeError.  Fallible evaluation is Except PyErr.
-/

namespace Divina

/-- Runtime errors of the Python layer that the embedded code can raise:
an attribute access on a name the class does not define, an invalid keyword
in a model constructor, and an SQLAlchemy query over an unmapped attribute. -/
inductive PyErr where
  | attributeError (attr : String)
  | typeError (msg : String)
  | invalidRequestError (msg : String)
deriving DecidableEq, Repr

/-- JSON-ish values appearing in the dictionaries the models serialise to. -/
inductive Val where
  | s (v : String)
  | i (v : Int)
  | q (v : ℚ)
  | b (v : Bool)
  | null
deriving DecidableEq, Repr

/-- Python None-or-string rendering used by several to_dict bodies. -/
def Val.ofOptStr : Option String → Val
  | none => .null
  | some v => .s v

/-- Abstract rendering of datetime.isoformat / date.isoformat on the Int
instants of the embedding; only the key structure of the dictionaries is
load-bearing for the claims, not the concrete text. -/
def isoformat (t : Int) : String := toString t

/-- User roles, from app/models/user.py (UserRole). -/
inductive UserRole where
  | admin
  | diveOperator
  | regular
deriving DecidableEq, Repr

/-- The caller identity the routes read off request.current_user; only the
fields the booking routes touch are kept. -/
structure User where
  id : Nat
  role : UserRole
  full_name : String
  email : String
deriving DecidableEq, Repr

/-- DivingSchedule, from app/models/store.py (class DivingSchedule): columns
id, store_id, title, description, date, start_time, end_time, price,
max_slots, booked_slots, is_active, is_cancelled, created_at.  There is no
column or property named available_slots. -/
structure DivingSchedule where
  id : Nat
  store_id : Nat
  title : String
  description : Option String
  date : Int
  start_time : Int
  end_time : Int
  price : ℚ
  max_slots : Int
  booked_slots : Int
  is_active : Bool
  is_cancelled : Bool
  created_at : Int
deriving DecidableEq, Repr

/-- The attribute names the class body of DivingSchedule binds
(store.py lines 47-103): the columns, the relationship, and the two
properties and two methods. -/
def DivingSchedule.classAttrs : List String :=
  ["id", "store_id", "title", "description", "date", "start_time", "end_time",
   "price", "max_slots", "booked_slots", "is_active", "is_cancelled",
   "created_at", "bookings", "is_fully_booked", "status", "to_dict"]

/-- Reading schedule.available_slots: DivingSchedule binds no attribute of
that name (see DivingSchedule.classAttrs), so Python attribute lookup raises
AttributeError.  The name is only ever read (store.py lines 71 and 96,
routes/books.py lines 115-118), never defined. -/
def DivingSchedule.available_slots (_ : DivingSchedule) : Except PyErr Int :=
  .error (.attributeError "available_slots")

/-- DivingSchedule.is_fully_booked (store.py lines 69-71): returns
self.available_slots == 0, hence propagates the AttributeError. -/
def DivingSchedule.is_fully_booked (s : DivingSchedule) : Except PyErr Bool := do
  let av ← s.available_slots
  return av == 0

/-- DivingSchedule.status (store.py lines 73-81): cancelled short-circuits
before is_fully_booked is evaluated; the remaining branches evaluate
is_fully_booked and propagate its error. -/
def DivingSchedule.status (s : DivingSchedule) : Except PyErr String := do
  if s.is_cancelled then return "cancelled"
  else if (← s.is_fully_booked) then return "fully_booked"
  else if !s.is_active then return "inactive"
  else return "available"

/-- DivingSchedule.to_dict (store.py lines 83-100).  The dict literal
evaluates its entries in order; the available_slots entry raises, so the
whole call raises.  storeName stands for self.store.name read through the
store relationship (None when absent). -/
def DivingSchedule.to_dict (s : DivingSchedule) (storeName : Option String) :
    Except PyErr (List (String × Val)) := do
  let av ← s.available_slots
  let fb ← s.is_fully_booked
  let st ← s.status
  return [("id", .i (s.id : Int)), ("store_id", .i (s.store_id : Int)),
    ("store_name", Val.ofOptStr storeName), ("title", .s s.title),
    ("description", Val.ofOptStr s.description),
    ("date", .s (isoformat s.date)),
    ("start_time", .s (isoformat s.start_time)),
    ("end_time", .s (isoformat s.end_time)),
    ("price", .q s.price), ("max_slots", .i s.max_slots),
    ("booked_slots", .i s.booked_slots), ("available_slots", .i av),
    ("is_fully_booked", .b fb), ("status", .s st),
    ("created_at", .s (isoformat s.created_at))]

/-- Booking, from app/models/books.py (class Booking): the store-name/expiry
variant.  Columns: id, user_id, booked_store, notes, created_at, expires_at,
is_expired, is_cancelled.  It has no schedule_id, slots, original_price,
discount_applied or final_price column. -/
structure Booking where
  id : Nat
  user_id : Nat
  booked_store : String
  notes : Option String
  created_at : Int
  expires_at : Int
  is_expired : Bool
  is_cancelled : Bool
deriving DecidableEq, Repr

/-- The mapped column names of the Booking model (books.py lines 12-20). -/
def Booking.columnNames : List String :=
  ["id", "user_id", "booked_store", "notes", "created_at", "expires_at",
   "is_expired", "is_cancelled"]

/-- The columns of Booking declared nullable=False without a default
(books.py lines 14-18): a row cannot be persisted without them. -/
def Booking.requiredColumns : List String :=
  ["user_id", "booked_store", "expires_at"]

/-- The keyword arguments the Booking(...) construction in
routes/books.py lines 157-165 passes.  schedule_id, slots, original_price,
discount_applied and final_price are not mapped attributes of Booking, and
the required booked_store and expires_at are absent. -/
def createBookingKwargs : List String :=
  ["user_id", "schedule_id", "slots", "notes", "original_price",
   "discount_applied", "final_price"]

/-- Booking.is_active (books.py lines 23-28). -/
def Booking.is_active (b : Booking) (now : Int) : Bool :=
  if b.is_cancelled || b.is_expired then false else decide (now < b.expires_at)

/-- Booking.check_and_update_expiry (books.py lines 30-34): flips is_expired
once the expiry instant has passed, unless cancelled or already expired. -/
def Booking.check_and_update_expiry (b : Booking) (now : Int) : Booking :=
  if !b.is_expired && !b.is_cancelled && decide (b.expires_at ≤ now) then
    { b with is_expired := true }
  else b

/-- Booking.to_dict (books.py lines 36-50): first runs
check_and_update_expiry (a mutation, so the updated row is returned
alongside the dictionary), then serialises the row.  user stands for
self.user read through the user relationship. -/
def Booking.to_dict (b : Booking) (user : Option User) (now : Int) :
    Booking × List (String × Val) :=
  let b := b.check_and_update_expiry now
  (b, [("id", .i (b.id : Int)), ("user_id", .i (b.user_id : Int)),
    ("booked_by", Val.ofOptStr (user.map (fun u => u.full_name))),
    ("email", Val.ofOptStr (user.map (fun u => u.email))),
    ("booked_store", .s b.booked_store),
    ("notes", Val.ofOptStr b.notes),
    ("created_at", .s (isoformat b.created_at)),
    ("expires_at", .s (isoformat b.expires_at)),
    ("is_active", .b (b.is_active now)),
    ("is_expired", .b b.is_expired),
    ("is_cancelled", .b b.is_cancelled)])

/-- Coupon, from app/models/coupon.py (class Coupon).  The max_uses and
valid_from columns are declared with misspelt keywords (nullale, dafault);
the intended nullability and default are used here, which no claim
depends on. -/
structure Coupon where
  id : Nat
  code : String
  description : Option String
  discount_type : String
  discount_value : ℚ
  min_price : Option ℚ
  max_discount : Option ℚ
  scope : String
  store_id : Option Nat
  schedule_id : Option Nat
  max_uses : Option Int
  uses_per_user : Int
  total_used : Int
  valid_from : Int
  valid_until : Option Int
  created_by : Nat
  is_active : Bool
  created_at : Int
deriving DecidableEq, Repr

/-- Coupon.is_expired (coupon.py lines 37-41): false when valid_until is
unset, otherwise now strictly past valid_until. -/
def Coupon.is_expired (c : Coupon) (now : Int) : Bool :=
  match c.valid_until with
  | none => false
  | some u => decide (u < now)

/-- Coupon.is_exhausted (coupon.py lines 43-47): false when max_uses is
unset, otherwise total_used has reached max_uses. -/
def Coupon.is_exhausted (c : Coupon) : Bool :=
  match c.max_uses with
  | none => false
  | some m => decide (m ≤ c.total_used)

/-- Coupon.is_valid (coupon.py lines 49-51). -/
def Coupon.is_valid (c : Coupon) (now : Int) : Bool :=
  c.is_active && !c.is_expired now && !c.is_exhausted

/-- Coupon.remaining_uses (coupon.py lines 53-57). -/
def Coupon.remaining_uses (c : Coupon) : Option Int :=
  match c.max_uses with
  | none => none
  | some m => some (max 0 (m - c.total_used))

/-- Coupon.compute_discount (coupon.py lines 59-68).  Python's truthiness
test if self.max_discount: is false both when max_discount is None and when
it is 0.0, so a zero cap is not applied; every value of discount_type other
than percentage takes the fixed branch; the final min clamps the discount to
the price. -/
def Coupon.compute_discount (c : Coupon) (original_price : ℚ) : ℚ :=
  let discount : ℚ :=
    if c.discount_type = "percentage" then
      let d := original_price * (c.discount_value / 100)
      match c.max_discount with
      | some m => if m ≠ 0 then min d m else d
      | none => d
    else c.discount_value
  min discount original_price

/-- CouponRedemption, from app/models/coupon.py (class CouponRedemption). -/
structure CouponRedemption where
  id : Nat
  coupon_id : Nat
  user_id : Nat
  booking_id : Nat
  original_price : ℚ
  discount_applied : ℚ
  final_price : ℚ
  redeemed_at : Int
deriving DecidableEq, Repr

/-- The persistent state the booking routes read and write: the rows of the
four tables involved.  A committed transaction is the returned state. -/
structure DB where
  schedules : List DivingSchedule
  bookings : List Booking
  coupons : List Coupon
  redemptions : List CouponRedemption
deriving DecidableEq, Repr

/-- The HTTP responses the booking routes produce; created is the 201
success of POST /api/bookings, ok the 200 success of the cancel route, and
internalError an uncaught Python exception (a 500). -/
inductive Resp where
  | created (bookingId : Nat)
  | ok (msg : String)
  | badRequest (msg : String)
  | notFound (msg : String)
  | conflict (msg : String)
  | forbidden (msg : String)
  | internalError (e : PyErr)
deriving DecidableEq, Repr

/-- Whether a response is the 201 success of create_booking. -/
def Resp.isCreated : Resp → Bool
  | .created _ => true
  | _ => false

/-- The request body of POST /api/bookings, already through request.get_json:
schedule_id and slots as the route reads them (data.get), notes and
coupon_code as the raw optional strings. -/
structure CreateReq where
  schedule_id : Option Nat
  slots : Int
  notes : Option String
  coupon_code : Option String
deriving DecidableEq, Repr

/-- Normalisation of the notes field (routes/books.py line 96):
(data.get("notes") or "").strip() or None. -/
def normNotes : Option String → Option String
  | none => none
  | some s => let t := s.trim; if t = "" then none else some t

/-- Normalisation of the coupon code (routes/books.py line 97):
(data.get("coupon_code") or "").strip().upper() or None. -/
def normCode : Option String → Option String
  | none => none
  | some s => let t := s.trim.toUpper; if t = "" then none else some t

/-- create_booking (routes/books.py lines 77-197).

The guards run in source order: missing (or zero, by Python truthiness)
schedule_id, slots below 1, schedule lookup, cancelled, inactive, past date.
Every surviving path then evaluates schedule.is_fully_booked (line 113),
which raises AttributeError because DivingSchedule defines no
available_slots; the exception escapes the route, so the request ends as a
500 with no session mutation.  The continuation of the source function is
modelled up to its next statement: the duplicate check at lines 121-124
filters Booking on schedule_id, which is not a mapped attribute of Booking,
so SQLAlchemy would raise InvalidRequestError there; everything after it
(the coupon validation at lines 134-154, the Booking construction at lines
157-165 whose keywords createBookingKwargs are unmapped, the slot increment
and the commit) is unreachable. -/
def create_booking (db : DB) (user : User) (req : CreateReq) (today : Int) :
    DB × Resp :=
  let _uid := user.id
  let _notes := normNotes req.notes
  let _coupon_code := normCode req.coupon_code
  match req.schedule_id with
  | none => (db, .badRequest "schedule_id is required")
  | some schedule_id =>
    if schedule_id = 0 then (db, .badRequest "schedule_id is required")
    else if req.slots < 1 then (db, .badRequest "slots must be at least 1")
    else
      match db.schedules.find? (fun s => s.id == schedule_id) with
      | none => (db, .notFound "Schedule not found")
      | some schedule =>
        if schedule.is_cancelled then
          (db, .badRequest "This schedule has been cancelled")
        else if !schedule.is_active then
          (db, .badRequest "This schedule is no longer available")
        else if schedule.date < today then
          (db, .badRequest "Cannot book a past schedule")
        else
          match schedule.is_fully_booked with
          | .error e => (db, .internalError e)
          | .ok fully =>
            if fully then (db, .badRequest "This schedule is fully booked")
            else
              match schedule.available_slots with
              | .error e => (db, .internalError e)
              | .ok avail =>
                if avail < req.slots then
                  (db, .badRequest "Only N slot(s) left")
                else
                  (db, .internalError (.invalidRequestError
                    "Booking has no mapped attribute schedule_id"))

/-- cancel_booking (routes/books.py lines 201-227).

Authorization (line 210) runs before the already-cancelled guard (line 212).
The slot restoration at lines 216-219 is guarded by if booking.schedule:;
schedule is the backref declared by DivingSchedule.bookings, but the Booking
model carries no foreign key into diving_schedules, so no booking row is
associated with any schedule, the guard finds nothing and lines 217-219
never run.  The only mutation is the is_cancelled flip at line 221. -/
def cancel_booking (db : DB) (user : User) (booking_id : Nat) : DB × Resp :=
  match db.bookings.find? (fun b => b.id == booking_id) with
  | none => (db, .notFound "Booking not found")
  | some booking =>
    if user.role ≠ UserRole.admin ∧ booking.user_id ≠ user.id then
      (db, .forbidden "Access denied")
    else if booking.is_cancelled then
      (db, .badRequest "Booking is already cancelled")
    else
      ({ db with bookings := db.bookings.map fun b =>
          if b.id == booking_id then { b with is_cancelled := true } else b },
       .ok "Booking cancelled successfully")

/-! ## Claim C2 — compute_discount -/

/-- The discount formula exactly as the specification words it: percentage
gives min of price times discountValue over 100, of maxDiscount whenever
maxDiscount is set, and of the price; fixed gives min of discountValue and
the price.  Stated from the spec for comparison with
Coupon.compute_discount, which is translated from the source. -/
def spec_discount (c : Coupon) (p : ℚ) : ℚ :=
  if c.discount_type = "percentage" then
    let d := p * (c.discount_value / 100)
    let d := match c.max_discount with
      | some m => min d m
      | none => d
    min d p
  else min c.discount_value p

/-- A percentage coupon whose maxDiscount is set to zero: the one point
where the code and the specified formula part ways. -/
def c2_coupon : Coupon :=
  { id := 1, code := "ZEROCAP", description := none,
    discount_type := "percentage", discount_value := 20,
    min_price := none, max_discount := some 0, scope := "global",
    store_id := none, schedule_id := none, max_uses := none,
    uses_per_user := 1, total_used := 0, valid_from := 0,
    valid_until := none, created_by := 1, is_active := true,
    created_at := 0 }

/-- C2 counterexample: on a percentage coupon with maxDiscount set to 0 and
price 100, the code returns 20 while the specified formula (min against the
cap whenever it is set) returns 0 — Python's truthiness test skips a zero
cap, so the claimed formula fails on the code. -/
theorem c2_zero_cap_counterexample :
    Coupon.compute_discount c2_coupon 100 = 20 ∧
    spec_discount c2_coupon 100 = 0 ∧
    Coupon.compute_discount c2_coupon 100 ≠ spec_discount c2_coupon 100 := by
  refine ⟨?_, ?_, ?_⟩ <;> norm_num [Coupon.compute_discount,
    spec_discount, c2_coupon]

/-- C2 amended: compute_discount returns min(p·discountValue/100,
maxDiscount when maxDiscount is set and nonzero, p) for percentage coupons
and min(discountValue, p) for fixed coupons, and never exceeds the original
price for any discountType / discountValue / maxDiscount combination. -/
theorem c2_compute_discount_formula (c : Coupon) (p : ℚ) :
    (c.discount_type = "percentage" →
      c.compute_discount p =
        min (match c.max_discount with
          | some m => if m ≠ 0 then min (p * (c.discount_value / 100)) m
                      else p * (c.discount_value / 100)
          | none => p * (c.discount_value / 100)) p) ∧
    (c.discount_type = "fixed" →
      c.compute_discount p = min c.discount_value p) ∧
    c.compute_discount p ≤ p := by
  refine ⟨fun h => ?_, fun h => ?_, ?_⟩
  · simp only [Coupon.compute_discount, h, if_pos]
  · have hne : c.discount_type ≠ "percentage" := by
      rw [h]; decide
    simp only [Coupon.compute_discount, hne, if_neg, ite_false]
  · unfold Coupon.compute_discount
    exact min_le_right _ _

/-- A percentage coupon with a live cap of 150, as in the scenario of the
specification (DIVE20, 20 percent, maxDiscount 150). -/
def c2_capped_coupon : Coupon :=
  { c2_coupon with code := "DIVE20", max_discount := some 150 }

/-- A fixed coupon of 300. -/
def c2_fixed_coupon : Coupon :=
  { c2_coupon with
    code := "FIX300",
    discount_type := "fixed",
    discount_value := 300,
    max_discount := none }

/-- C2 amended witness: the formula and the clamp at concrete inputs — a
percentage coupon with a live cap of 150 on price 2000 is capped at 150,
and a fixed coupon of 300 on price 200 is clamped to the price. -/
theorem c2_compute_discount_formula_witness :
    Coupon.compute_discount c2_capped_coupon 2000 = 150 ∧
    Coupon.compute_discount c2_fixed_coupon 200 = 200 := by
  constructor
  · have h := (c2_compute_discount_formula c2_capped_coupon 2000).1 rfl
    rw [h]; norm_num [c2_capped_coupon, c2_coupon]
  · have h := (c2_compute_discount_formula c2_fixed_coupon 200).2.1 rfl
    rw [h]; norm_num [c2_fixed_coupon, c2_coupon]

/-! ## Claim C8 — booking JSON representation -/

/-- The field set the specification claims for the booking JSON
representation (spec section 6). -/
def claimedBookingKeys : List String :=
  ["id", "user_id", "booked_by", "email", "schedule_id", "schedule", "slots",
   "notes", "original_price", "discount_applied", "final_price", "created_at",
   "is_cancelled"]

/-- The field set Booking.to_dict actually serialises
(books.py lines 36-50). -/
def actualBookingKeys : List String :=
  ["id", "user_id", "booked_by", "email", "booked_store", "notes",
   "created_at", "expires_at", "is_active", "is_expired", "is_cancelled"]

/-- A concrete booking row of the model as it exists. -/
def c8_booking : Booking :=
  { id := 1, user_id := 1, booked_store := "Blue Sea Divers", notes := none,
    created_at := 0, expires_at := 100, is_expired := false,
    is_cancelled := false }

/-- C8 counterexample: the serialised booking has no schedule_id field though
the claim lists one, and has a booked_store field the claim does not list —
the claimed field set is not the one the code produces. -/
theorem c8_keys_counterexample :
    ((Booking.to_dict c8_booking none 0).2.map Prod.fst).contains
      "schedule_id" = false ∧
    claimedBookingKeys.contains "schedule_id" = true ∧
    ((Booking.to_dict c8_booking none 0).2.map Prod.fst).contains
      "booked_store" = true ∧
    claimedBookingKeys.contains "booked_store" = false := by
  refine ⟨by decide, by decide, by decide, by decide⟩

/-- C8 amended: for every booking, Booking.to_dict serialises exactly the
fields id, user_id, booked_by, email, booked_store, notes, created_at,
expires_at, is_active, is_expired, is_cancelled, in that order. -/
theorem c8_booking_keys (b : Booking) (u : Option User) (now : Int) :
    (Booking.to_dict b u now).2.map Prod.fst = actualBookingKeys := rfl

/-! ## Claim C9 — available_slots does not exist -/

/-- A concrete cancelled schedule. -/
def c9_cancelled_schedule : DivingSchedule :=
  { id := 3, store_id := 1, title := "Cancelled trip", description := none,
    date := 10, start_time := 8, end_time := 11, price := 1500,
    max_slots := 10, booked_slots := 0, is_active := false,
    is_cancelled := true, created_at := 0 }

/-- C9 counterexample: the claim says evaluating status raises
AttributeError for every schedule, but on a cancelled schedule the
cancelled branch returns before is_fully_booked is evaluated, so status
evaluates without error. -/
theorem c9_status_counterexample :
    DivingSchedule.status c9_cancelled_schedule = Except.ok "cancelled" ∧
    DivingSchedule.status c9_cancelled_schedule ≠
      Except.error (PyErr.attributeError "available_slots") := by
  refine ⟨rfl, ?_⟩
  intro h
  rw [show DivingSchedule.status c9_cancelled_schedule
    = Except.ok "cancelled" from rfl] at h
  exact Except.noConfusion h

/-- C9 amended: available_slots is bound nowhere in the DivingSchedule class
body; is_fully_booked and to_dict raise AttributeError on every schedule
whatsoever; status raises it on every non-cancelled schedule; and
create_booking on any existing, non-zero-id, active, non-cancelled,
future-dated schedule with a positive slot request reaches the capacity
check and dies of that AttributeError with the state untouched.  Each
conjunct carries only the hypotheses it is about: the first three quantify
over all schedules (cancelled, inactive, past or absent ones included). -/
theorem c9_available_slots_attribute_error :
    DivingSchedule.classAttrs.contains "available_slots" = false ∧
    (∀ s : DivingSchedule,
      s.is_fully_booked = .error (.attributeError "available_slots")) ∧
    (∀ (s : DivingSchedule) (n : Option String),
      s.to_dict n = .error (.attributeError "available_slots")) ∧
    (∀ s : DivingSchedule, s.is_cancelled = false →
      s.status = .error (.attributeError "available_slots")) ∧
    (∀ (db : DB) (user : User) (req : CreateReq) (today : Int) (sid : Nat)
      (s : DivingSchedule), req.schedule_id = some sid → sid ≠ 0 →
      1 ≤ req.slots →
      db.schedules.find? (fun x => x.id == sid) = some s →
      s.is_cancelled = false → s.is_active = true → today ≤ s.date →
      create_booking db user req today =
        (db, .internalError (.attributeError "available_slots"))) := by
  refine ⟨by decide, fun s => rfl, fun s n => rfl, ?_, ?_⟩
  · intro s hnc
    simp only [DivingSchedule.status, hnc, Bool.false_eq_true, if_false]
    rfl
  · intro db user req today sid s hsid hnz hslots hfind hnc hac hdate
    have hs1 : ¬(req.slots < 1) := by omega
    have hd : ¬(s.date < today) := by omega
    unfold create_booking
    rw [hsid]
    dsimp only
    rw [if_neg hnz, if_neg hs1, hfind]
    dsimp only
    rw [if_neg (by simp [hnc]), if_neg (by simp [hac]), if_neg hd]
    rfl

/-- A live future schedule for the C9 witness. -/
def c9_live_schedule : DivingSchedule :=
  { id := 5, store_id := 1, title := "Morning Dive", description := none,
    date := 10, start_time := 8, end_time := 11, price := 1500,
    max_slots := 10, booked_slots := 0, is_active := true,
    is_cancelled := false, created_at := 0 }

/-- The database state for the C9 witness. -/
def c9_db : DB :=
  { schedules := [c9_live_schedule], bookings := [], coupons := [],
    redemptions := [] }

/-- The caller for the C9 witness. -/
def c9_user : User :=
  { id := 7, role := .regular, full_name := "Dana Diver",
    email := "dana@example.com" }

/-- The request for the C9 witness. -/
def c9_req : CreateReq :=
  { schedule_id := some 5, slots := 1, notes := none, coupon_code := none }

/-- C9 witness: the amended claim at concrete inputs — is_fully_booked and
to_dict raising even on the cancelled schedule, status raising on the live
(non-cancelled) schedule, and the booking request on the live schedule
dying of the AttributeError with the state unchanged. -/
theorem c9_available_slots_attribute_error_witness :
    DivingSchedule.is_fully_booked c9_cancelled_schedule =
      .error (.attributeError "available_slots") ∧
    DivingSchedule.to_dict c9_cancelled_schedule none =
      .error (.attributeError "available_slots") ∧
    DivingSchedule.status c9_live_schedule =
      .error (.attributeError "available_slots") ∧
    create_booking c9_db c9_user c9_req 0 =
      (c9_db, .internalError (.attributeError "available_slots")) :=
  ⟨c9_available_slots_attribute_error.2.1 c9_cancelled_schedule,
   c9_available_slots_attribute_error.2.2.1 c9_cancelled_schedule none,
   c9_available_slots_attribute_error.2.2.2.1 c9_live_schedule rfl,
   c9_available_slots_attribute_error.2.2.2.2 c9_db c9_user c9_req 0 5
     c9_live_schedule rfl (by decide) (by decide) rfl rfl rfl (by decide)⟩

/-! ## Claim C10 — create_booking can never persist a booking -/

/-- C10: create_booking never returns the 201 success and never changes the
state, on every database state and request; the Booking model maps none of
the schedule_id, slots, original_price, discount_applied, final_price
attributes the route relies on, and the construction keywords omit the
required booked_store and expires_at columns. -/
theorem c10_create_booking_never_persists :
    (∀ (db : DB) (user : User) (req : CreateReq) (today : Int),
      (create_booking db user req today).1 = db ∧
      (create_booking db user req today).2.isCreated = false) ∧
    Booking.columnNames.contains "schedule_id" = false ∧
    Booking.columnNames.contains "slots" = false ∧
    Booking.columnNames.contains "original_price" = false ∧
    Booking.columnNames.contains "discount_applied" = false ∧
    Booking.columnNames.contains "final_price" = false ∧
    Booking.requiredColumns.contains "booked_store" = true ∧
    Booking.requiredColumns.contains "expires_at" = true ∧
    createBookingKwargs.contains "booked_store" = false ∧
    createBookingKwargs.contains "expires_at" = false := by
  refine ⟨?_, by decide⟩
  intro db user req today
  unfold create_booking
  dsimp only
  split
  · exact ⟨rfl, rfl⟩
  all_goals try split
  all_goals try split
  all_goals try split
  all_goals try split
  all_goals try split
  all_goals try split
  all_goals try split
  all_goals first
    | exact ⟨rfl, rfl⟩
    | simp_all [DivingSchedule.is_fully_booked, DivingSchedule.available_slots]

/-! ## Claim C6 — cancelling an already-cancelled booking -/

/-- An already-cancelled booking owned by user 1. -/
def c6_booking : Booking :=
  { id := 1, user_id := 1, booked_store := "Blue Sea Divers", notes := none,
    created_at := 0, expires_at := 100, is_expired := false,
    is_cancelled := true }

/-- The database state holding only that cancelled booking. -/
def c6_db : DB :=
  { schedules := [], bookings := [c6_booking], coupons := [],
    redemptions := [] }

/-- A regular caller who is not the booking's owner. -/
def c6_stranger : User :=
  { id := 2, role := .regular, full_name := "Sam Stranger",
    email := "sam@example.com" }

/-- The booking's owner. -/
def c6_owner : User :=
  { id := 1, role := .regular, full_name := "Olive Owner",
    email := "olive@example.com" }

/-- C6 counterexample: a cancel request on an already-cancelled booking by a
caller who is neither the owner nor an admin fails Forbidden (the
authorization guard at routes/books.py line 210 runs first), not
AlreadyCancelled as the claim states for every such request. -/
theorem c6_stranger_counterexample :
    cancel_booking c6_db c6_stranger 1 =
      (c6_db, .forbidden "Access denied") ∧
    (cancel_booking c6_db c6_stranger 1).2 ≠
      .badRequest "Booking is already cancelled" := by
  refine ⟨rfl, ?_⟩
  intro h
  rw [show (cancel_booking c6_db c6_stranger 1).2
    = .forbidden "Access denied" from rfl] at h
  exact Resp.noConfusion h

/-- C6 amended: a cancel request by the booking's owner or an admin on a
booking whose is_cancelled flag is already true fails with the
AlreadyCancelled rejection and mutates nothing at all — in particular no
schedule's booked_slots is decremented a second time. -/
theorem c6_already_cancelled_guard (db : DB) (user : User) (bid : Nat)
    (b : Booking)
    (hfind : db.bookings.find? (fun x => x.id == bid) = some b)
    (hauth : user.role = UserRole.admin ∨ b.user_id = user.id)
    (hcanc : b.is_cancelled = true) :
    cancel_booking db user bid =
      (db, .badRequest "Booking is already cancelled") := by
  have hna : ¬(user.role ≠ UserRole.admin ∧ b.user_id ≠ user.id) := by
    rcases hauth with h | h
    · exact fun hc => hc.1 h
    · exact fun hc => hc.2 h
  unfold cancel_booking
  rw [hfind]
  dsimp only
  rw [if_neg hna, if_pos hcanc]

/-- C6 witness: the owner cancelling the already-cancelled booking above is
told AlreadyCancelled and the state is returned unchanged. -/
theorem c6_already_cancelled_guard_witness :
    cancel_booking c6_db c6_owner 1 =
      (c6_db, .badRequest "Booking is already cancelled") :=
  c6_already_cancelled_guard c6_db c6_owner 1 c6_booking rfl
    (Or.inr rfl) rfl

/-! ## Claim C7 — cancellation frame: coupon state is never touched -/

/-- C7: a successful cancel-booking changes nothing but the target booking's
is_cancelled flag: the coupons table (hence every totalUsed counter), the
redemptions table, and the schedules table are returned exactly as given,
and the bookings table is the pointwise update of the one flag.  A
cancelled booking's redemption therefore still counts against usesPerUser
and totalUsed. -/
theorem c7_cancel_frame (db : DB) (user : User) (bid : Nat) (b : Booking)
    (hfind : db.bookings.find? (fun x => x.id == bid) = some b)
    (hauth : user.role = UserRole.admin ∨ b.user_id = user.id)
    (hact : b.is_cancelled = false) :
    (cancel_booking db user bid).2 = .ok "Booking cancelled successfully" ∧
    (cancel_booking db user bid).1.coupons = db.coupons ∧
    (cancel_booking db user bid).1.redemptions = db.redemptions ∧
    (cancel_booking db user bid).1.schedules = db.schedules ∧
    (cancel_booking db user bid).1.bookings =
      db.bookings.map (fun x =>
        if x.id == bid then { x with is_cancelled := true } else x) := by
  have hna : ¬(user.role ≠ UserRole.admin ∧ b.user_id ≠ user.id) := by
    rcases hauth with h | h
    · exact fun hc => hc.1 h
    · exact fun hc => hc.2 h
  have hres : cancel_booking db user bid =
      ({ db with bookings := db.bookings.map fun x =>
          if x.id == bid then { x with is_cancelled := true } else x },
       .ok "Booking cancelled successfully") := by
    unfold cancel_booking
    rw [hfind]
    dsimp only
    rw [if_neg hna, if_neg (by simp [hact])]
  rw [hres]
  exact ⟨rfl, rfl, rfl, rfl, rfl⟩

/-- An active booking owned by user 1, for the C7 witness. -/
def c7_booking : Booking :=
  { id := 4, user_id := 1, booked_store := "Blue Sea Divers", notes := none,
    created_at := 0, expires_at := 100, is_expired := false,
    is_cancelled := false }

/-- A redeemed coupon sitting in the state, for the C7 witness. -/
def c7_coupon : Coupon :=
  { id := 9, code := "DIVE20", description := none,
    discount_type := "percentage", discount_value := 20,
    min_price := some 500, max_discount := some 150, scope := "global",
    store_id := none, schedule_id := none, max_uses := some 100,
    uses_per_user := 1, total_used := 1, valid_from := 0,
    valid_until := none, created_by := 1, is_active := true,
    created_at := 0 }

/-- The redemption record of that coupon, for the C7 witness. -/
def c7_redemption : CouponRedemption :=
  { id := 1, coupon_id := 9, user_id := 1, booking_id := 4,
    original_price := 2000, discount_applied := 150, final_price := 1850,
    redeemed_at := 0 }

/-- A schedule sitting in the state, for the C7 witness. -/
def c7_schedule : DivingSchedule :=
  { id := 5, store_id := 1, title := "Morning Dive", description := none,
    date := 10, start_time := 8, end_time := 11, price := 1000,
    max_slots := 2, booked_slots := 2, is_active := true,
    is_cancelled := false, created_at := 0 }

/-- The database state for the C7 witness. -/
def c7_db : DB :=
  { schedules := [c7_schedule], bookings := [c7_booking],
    coupons := [c7_coupon], redemptions := [c7_redemption] }

/-- The booking's owner, for the C7 witness. -/
def c7_owner : User :=
  { id := 1, role := .regular, full_name := "Olive Owner",
    email := "olive@example.com" }

/-- C7 witness: the owner cancels the active booking; the cancel succeeds
and the coupon with totalUsed 1, its redemption record and the schedules
are all returned exactly unchanged. -/
theorem c7_cancel_frame_witness :
    (cancel_booking c7_db c7_owner 4).2 =
      .ok "Booking cancelled successfully" ∧
    (cancel_booking c7_db c7_owner 4).1.coupons = c7_db.coupons ∧
    (cancel_booking c7_db c7_owner 4).1.redemptions = c7_db.redemptions ∧
    (cancel_booking c7_db c7_owner 4).1.schedules = c7_db.schedules ∧
    (cancel_booking c7_db c7_owner 4).1.bookings =
      c7_db.bookings.map (fun x =>
        if x.id == 4 then { x with is_cancelled := true } else x) :=
  c7_cancel_frame c7_db c7_owner 4 c7_booking rfl (Or.inr rfl) rfl

/-! ## Claim C1 — slot-capacity invariant mechanism -/

/-- An empty live schedule with capacity 10. -/
def c1_schedule : DivingSchedule :=
  { id := 1, store_id := 1, title := "Reef Dive", description := none,
    date := 10, start_time := 8, end_time := 11, price := 1000,
    max_slots := 10, booked_slots := 0, is_active := true,
    is_cancelled := false, created_at := 0 }

/-- The state holding only that schedule. -/
def c1_db : DB :=
  { schedules := [c1_schedule], bookings := [], coupons := [],
    redemptions := [] }

/-- A regular caller. -/
def c1_user : User :=
  { id := 3, role := .regular, full_name := "Ben Booker",
    email := "ben@example.com" }

/-- A well-formed one-slot booking request on that schedule. -/
def c1_req : CreateReq :=
  { schedule_id := some 1, slots := 1, notes := none, coupon_code := none }

/-- C1 failing input evaluated: the capacity verification the claim credits
for the invariant raises AttributeError instead of comparing slots against
availableSlots, so the request dies as a 500 and booked_slots is never
incremented — the counter stays within bounds only because no create ever
reaches the increment. -/
theorem c1_capacity_verification_raises :
    create_booking c1_db c1_user c1_req 0 =
      (c1_db, .internalError (.attributeError "available_slots")) ∧
    (create_booking c1_db c1_user c1_req 0).1.schedules.map
      (fun s => s.booked_slots) = [0] :=
  ⟨rfl, rfl⟩

/-! ## Claim C3 — create-then-cancel round trip -/

/-- A live schedule with three of ten slots booked. -/
def c3_schedule : DivingSchedule :=
  { id := 2, store_id := 1, title := "Wreck Dive", description := none,
    date := 8, start_time := 13, end_time := 16, price := 1500,
    max_slots := 10, booked_slots := 3, is_active := true,
    is_cancelled := false, created_at := 0 }

/-- The state holding only that schedule and no bookings. -/
def c3_db : DB :=
  { schedules := [c3_schedule], bookings := [], coupons := [],
    redemptions := [] }

/-- A regular caller. -/
def c3_user : User :=
  { id := 4, role := .regular, full_name := "Cara Caller",
    email := "cara@example.com" }

/-- A two-slot booking request on that schedule. -/
def c3_req : CreateReq :=
  { schedule_id := some 2, slots := 2, notes := some "round trip",
    coupon_code := none }

/-- C3 failing input evaluated: the create half of the claimed round trip
never completes — the request raises AttributeError, no booking row exists
afterwards to cancel, and booked_slots never moves, so the round-trip
property has no run to hold on. -/
theorem c3_roundtrip_create_never_succeeds :
    create_booking c3_db c3_user c3_req 1 =
      (c3_db, .internalError (.attributeError "available_slots")) ∧
    (create_booking c3_db c3_user c3_req 1).1.bookings = [] ∧
    (create_booking c3_db c3_user c3_req 1).1.schedules.map
      (fun s => s.booked_slots) = [3] :=
  ⟨rfl, rfl, rfl⟩

/-! ## Claim C4 — duplicate active booking rejected with Conflict -/

/-- A live schedule with one of ten slots booked. -/
def c4_schedule : DivingSchedule :=
  { id := 6, store_id := 1, title := "Night Dive", description := none,
    date := 20, start_time := 19, end_time := 22, price := 2000,
    max_slots := 10, booked_slots := 1, is_active := true,
    is_cancelled := false, created_at := 0 }

/-- An active booking row held by user 8 — the closest state the actual
Booking model can express to an existing active booking, since the model
carries no schedule reference. -/
def c4_booking : Booking :=
  { id := 1, user_id := 8, booked_store := "Blue Sea Divers", notes := none,
    created_at := 0, expires_at := 100, is_expired := false,
    is_cancelled := false }

/-- The state with the schedule and the active booking. -/
def c4_db : DB :=
  { schedules := [c4_schedule], bookings := [c4_booking], coupons := [],
    redemptions := [] }

/-- The same user booking again. -/
def c4_user : User :=
  { id := 8, role := .regular, full_name := "Dia Dupe",
    email := "dia@example.com" }

/-- The second booking request by that user on that schedule. -/
def c4_req : CreateReq :=
  { schedule_id := some 6, slots := 1, notes := none, coupon_code := none }

/-- C4 failing input evaluated: the second request by a user already holding
an active booking dies of the AttributeError at the capacity check, a 500,
not the claimed Conflict — the duplicate check is never reached, and could
not run anyway since schedule_id is not a mapped attribute of Booking. -/
theorem c4_duplicate_check_unreachable :
    create_booking c4_db c4_user c4_req 0 =
      (c4_db, .internalError (.attributeError "available_slots")) ∧
    (create_booking c4_db c4_user c4_req 0).2 ≠
      .conflict "You have already booked this schedule" ∧
    Booking.columnNames.contains "schedule_id" = false := by
  refine ⟨rfl, ?_, by decide⟩
  intro h
  rw [show (create_booking c4_db c4_user c4_req 0).2
    = .internalError (.attributeError "available_slots") from rfl] at h
  exact Resp.noConfusion h

/-! ## Claim C5 — ordered coupon validation -/

/-- A live schedule priced at 1000 per slot. -/
def c5_schedule : DivingSchedule :=
  { id := 7, store_id := 2, title := "Coral Garden", description := none,
    date := 15, start_time := 9, end_time := 12, price := 1000,
    max_slots := 4, booked_slots := 0, is_active := true,
    is_cancelled := false, created_at := 0 }

/-- A currently valid global percentage coupon stored in canonical
uppercase. -/
def c5_coupon : Coupon :=
  { id := 2, code := "DIVE20", description := none,
    discount_type := "percentage", discount_value := 20,
    min_price := some 500, max_discount := some 150, scope := "global",
    store_id := none, schedule_id := none, max_uses := some 100,
    uses_per_user := 1, total_used := 0, valid_from := 0,
    valid_until := some 100, created_by := 1, is_active := true,
    created_at := 0 }

/-- The state with the schedule and the coupon, no prior redemptions. -/
def c5_db : DB :=
  { schedules := [c5_schedule], bookings := [], coupons := [c5_coupon],
    redemptions := [] }

/-- A regular caller with no prior redemptions. -/
def c5_user : User :=
  { id := 9, role := .regular, full_name := "Eve Eager",
    email := "eve@example.com" }

/-- A two-slot booking request supplying the coupon code in lowercase. -/
def c5_req : CreateReq :=
  { schedule_id := some 7, slots := 2, notes := none,
    coupon_code := some "dive20" }

/-- C5 failing input evaluated: a request carrying a currently valid coupon
code dies of the AttributeError at the capacity check, before the first of
the five coupon checks can run — the outcome is a 500, not any of the
distinct coupon rejections, and the coupon state is untouched. -/
theorem c5_coupon_validation_unreachable :
    create_booking c5_db c5_user c5_req 0 =
      (c5_db, .internalError (.attributeError "available_slots")) ∧
    (create_booking c5_db c5_user c5_req 0).1.coupons = [c5_coupon] ∧
    Coupon.is_valid c5_coupon 0 = true :=
  ⟨rfl, rfl, rfl⟩

end Divina
